import Mathlib

/-!
Verification of the Semantica book recommender against its specification.

The repository ships a React frontend (App.jsx, SearchBar.jsx, BookCard.jsx,
BookDetail.jsx, BookGallery.jsx) and documents a FastAPI backend
(backend_api.py) exposing the recommendation engine.  The frontend components
are embedded here directly from their JavaScript source; the backend engine
(filter policy, deduplication, ranking pipeline) is modelled from the
specification, as its source file is not part of the frontend tree.

JavaScript conventions used by the embedding:
* a possibly-absent string field is an `Option String`, `none` standing for
  `undefined`/`null`;
* JavaScript truthiness of a string is `s ≠ ""`; of an optional string it is
  `truthyS`;
* `a || b` on strings is `jsOrS`, on optional strings `jsOrOpt`.
-/

namespace Semantica

/-- JavaScript truthiness of a possibly absent string: `undefined`, `null`
and the empty string are falsy, every other string is truthy. -/
def truthyS : Option String → Bool
  | none => false
  | some s => s ≠ ""

/-- JavaScript `a || b` on possibly absent strings. -/
def jsOrOpt (a b : Option String) : Option String :=
  if truthyS a then a else b

/-- JavaScript `a || b` where `a` is a string and `b` a fallback string. -/
def jsOrS (a b : String) : String :=
  if a ≠ "" then a else b

/-! ## SearchBar.jsx — `handleSubmit`

Both SearchBar variants contain the identical guard

  if (query.trim()) { onSearch(query); } else { alert(...); }

The query is modelled as a list of characters; `jsTrim` is the semantics of
`String.prototype.trim` (strip whitespace from both ends).  The result of
`handleSubmit` is `some q` when `onSearch` is invoked with the (untrimmed)
query `q`, and `none` when the submission is rejected with an alert. -/

/-- Whitespace characters stripped by JavaScript `trim`. -/
def wsChar (c : Char) : Bool :=
  c = ' ' || c = '\t' || c = '\n' || c = '\r' || c = '\x0b' || c = '\x0c'

/-- JavaScript `String.prototype.trim`: drop whitespace from both ends. -/
def jsTrim (s : List Char) : List Char :=
  ((s.dropWhile wsChar).reverse.dropWhile wsChar).reverse

/-- SearchBar `handleSubmit` (src/SearchBar.jsx lines 15-22 and
src/semantic-book-ui/src/components/SearchBar.jsx lines 15-22):
`some q` means `onSearch(q)` was invoked, `none` means the alert path. -/
def handleSubmit (query : List Char) : Option (List Char) :=
  if jsTrim query ≠ [] then some query else none

/-! ## Cover image URL selection

Two formulas occur in the sources.

Variant A (reverted BookDetail in src/unnamed/part_005 and reverted BookCard
at the end of src/semantic-book-ui/src/components/SearchBar.jsx):

  book.large_thumbnail && book.large_thumbnail !== 'cover-not-found.jpg'
    ? book.large_thumbnail : DEFAULT_COVER_URL

Variant B (BookDetail in src/unnamed/part_004 and BookCard in
src/unnamed/part_006, with a `thumbnail` fallback):

  (book.large_thumbnail || book.thumbnail)
      && book.large_thumbnail !== 'cover-not-found.jpg'
    ? (book.large_thumbnail || book.thumbnail) : DEFAULT_COVER_URL

Both are parametrised by the placeholder constant `d`, since the files use
different placeholder URLs. -/

/-- Missing-cover sentinel value stored in the `large_thumbnail` field. -/
def coverNotFound : String := "cover-not-found.jpg"

/-- Placeholder URL of the reverted components (150x220). -/
def defaultCover150 : String :=
  "https://via.placeholder.com/150x220.png?text=No+Cover"

/-- Placeholder URL of the new components and the reverted BookDetail
(200x300). -/
def defaultCover200 : String :=
  "https://via.placeholder.com/200x300.png?text=No+Cover"

/-- Variant A of `imageUrl` (no thumbnail fallback). -/
def imageUrlA (d : String) (large : Option String) : String :=
  if truthyS large && (large ≠ some coverNotFound) then (jsOrOpt large none).getD d
  else d

/-- Variant B of `imageUrl` (with `thumbnail` fallback). -/
def imageUrlB (d : String) (large thumb : Option String) : String :=
  let fb := jsOrOpt large thumb
  if truthyS fb && (large ≠ some coverNotFound) then fb.getD d
  else d

/-! ## Reverted BookCard title truncation

src/semantic-book-ui/src/components/SearchBar.jsx line 142:

  const title = book.title || 'Unknown Title';
  ...
  {title ? (title.length > 40 ? `${title.substring(0, 37)}...` : title)
         : 'Unknown Title'}

Titles are modelled as lists of characters so that length arithmetic is
directly available. -/

/-- Fallback title used when a book has no title. -/
def unknownTitle : List Char := "Unknown Title".data

/-- Displayed title of the reverted BookCard, as a function of the raw
`book.title` field. -/
def displayTitle (bookTitle : Option (List Char)) : List Char :=
  let title := match bookTitle with
    | some s => if s ≠ [] then s else unknownTitle
    | none => unknownTitle
  if title ≠ [] then
    (if title.length > 40 then title.take 37 ++ "...".data else title)
  else unknownTitle

/-! ## Authors / categories field normalization

`book.authors` and `book.categories` may arrive as a list of strings, a
single string, or be absent. -/

/-- A JavaScript field that may hold a string, a list of strings, or be
absent. -/
inductive JsStrField where
  | absent : JsStrField
  | str : String → JsStrField
  | list : List String → JsStrField
deriving DecidableEq, Repr

/-- Categories normalization of BookDetail (src/unnamed/part_004 lines
64-71):

  Array.isArray(c) ? c
    : c ? String(c).split(',').map(s => s.trim()).filter(Boolean) : [] -/
def normalizeCategoriesDetail : JsStrField → List String
  | .list l => l
  | .str s =>
    if s ≠ "" then ((s.splitOn ",").map String.trim).filter (· ≠ "") else []
  | .absent => []

/-- Categories normalization of BookCard (src/unnamed/part_006 lines 21-28),
textually identical to the BookDetail one. -/
def normalizeCategoriesCard : JsStrField → List String
  | .list l => l
  | .str s =>
    if s ≠ "" then ((s.splitOn ",").map String.trim).filter (· ≠ "") else []
  | .absent => []

/-- Authors display value of BookDetail (src/unnamed/part_004 lines 60-63):

  const authors = Array.isArray(a)
    ? (a.length > 0 ? a.join(', ') : null) : a || 'Unknown Author';
  const resolvedAuthors = authors || 'Unknown Author'; -/
def bookDetailAuthors (f : JsStrField) : String :=
  let authors : Option String := match f with
    | .list l => if l.length > 0 then some (String.intercalate ", " l) else none
    | .str s => some (jsOrS s "Unknown Author")
    | .absent => some "Unknown Author"
  match authors with
  | some s => jsOrS s "Unknown Author"
  | none => "Unknown Author"

/-- Author display value of BookCard (src/unnamed/part_006 lines 18-20):

  Array.isArray(a) ? a[0] || 'Unknown Author' : a || 'Unknown Author' -/
def bookCardAuthor : JsStrField → String
  | .list l => jsOrS (l.headD "") "Unknown Author"
  | .str s => jsOrS s "Unknown Author"
  | .absent => "Unknown Author"

/-! ## App.jsx — client state and `handleSearch`

src/unnamed/part_003 holds two versions of App.jsx (a reverted one and a
new one).  Both keep the same React state and differ in `handleSearch` only
in the emptiness test and the info message text.  The state is modelled as a
record, parametric in the type of book objects; `handleSearch` is modelled
as the state transformation induced by one request/response cycle, together
with the request body it sends. -/

/-- The `/filters` payload: option lists for the two select boxes. -/
structure FilterOptions where
  categories : List String
  tones : List String
deriving DecidableEq, Repr

/-- React state of the App component (both versions declare the same eight
`useState` hooks). -/
structure AppState (Book : Type) where
  recommendations : List Book
  selectedBook : Option Book
  isLoading : Bool
  error : Option String
  info : Option String
  filterOptions : FilterOptions
  selectedCategory : String
  selectedTone : String
deriving DecidableEq, Repr

/-- Initial App state from the `useState` initializers (src/unnamed/part_003
lines 12-19 and 172-179). -/
def initialAppState (Book : Type) : AppState Book where
  recommendations := []
  selectedBook := none
  isLoading := false
  error := none
  info := none
  filterOptions := { categories := ["All"], tones := ["All"] }
  selectedCategory := "All"
  selectedTone := "All"

/-- Body of the POST /recommendations request sent by `handleSearch`. -/
structure RecRequest where
  query : String
  category : String
  tone : String
deriving DecidableEq, Repr

/-- Outcome of the axios POST: success carries `response.data.recommendations`
(possibly absent), failure carries `err.response?.data?.detail` (possibly
absent). -/
inductive RecOutcome (Book : Type) where
  | success : Option (List Book) → RecOutcome Book
  | failure : Option String → RecOutcome Book

/-- Request body built by `handleSearch` (src/unnamed/part_003 lines 44-48
and 203-207): the query together with the currently selected category and
tone. -/
def searchRequest {Book : Type} (s : AppState Book) (query : String) : RecRequest where
  query := query
  category := s.selectedCategory
  tone := s.selectedTone

/-- Common prologue of both `handleSearch` versions: setIsLoading(true),
setError(null), setInfo(null), setSelectedBook(null),
setRecommendations([]). -/
def searchPrologue {Book : Type} (s : AppState Book) : AppState Book :=
  { s with isLoading := true, error := none, info := none,
           selectedBook := none, recommendations := [] }

/-- Info message of the reverted App version. -/
def infoMsgV1 : String :=
  "No specific recommendations found matching your criteria. Try broadening your search!"

/-- Info message of the new App version. -/
def infoMsgV2 : String :=
  "No specific recommendations found. Try broadening your search!"

/-- Error fallback message used by both versions when the response carries no
detail field. -/
def errorFallbackMsg : String :=
  "Failed to fetch recommendations. Is the backend running?"

/-- Error message set by the catch branch:
`err.response?.data?.detail || "Failed to fetch recommendations. ..."`
(an absent or empty detail is falsy and yields the fallback). -/
def errorMessageOf (detail : Option String) : String :=
  jsOrS (detail.getD "") errorFallbackMsg

/-- `handleSearch` of the reverted App version (src/unnamed/part_003 lines
35-60) as a state transformation over one request/response cycle. -/
def handleSearchV1 {Book : Type} (s : AppState Book) (outcome : RecOutcome Book) :
    AppState Book :=
  let s1 := searchPrologue s
  let s2 := match outcome with
    | .success recs =>
      let s' := { s1 with recommendations := recs.getD [] }
      match recs with
      | none => { s' with info := some infoMsgV1 }
      | some l => if l.length = 0 then { s' with info := some infoMsgV1 } else s'
    | .failure detail =>
      { s1 with error := some (errorMessageOf detail),
                recommendations := [] }
  { s2 with isLoading := false }

/-- `handleSearch` of the new App version (src/unnamed/part_003 lines
195-221) as a state transformation over one request/response cycle. -/
def handleSearchV2 {Book : Type} (s : AppState Book) (outcome : RecOutcome Book) :
    AppState Book :=
  let s1 := searchPrologue s
  let s2 := match outcome with
    | .success recs =>
      let newRecs := recs.getD []
      let s' := { s1 with recommendations := newRecs }
      if newRecs.length = 0 then { s' with info := some infoMsgV2 } else s'
    | .failure detail =>
      { s1 with error := some (errorMessageOf detail),
                recommendations := [] }
  { s2 with isLoading := false }

/-! ## Recommendation engine (modelled from the spec)

The backend source (backend_api.py, exposing /filters and /recommendations)
is not part of the frontend tree, so the engine is modelled from the
specification, sections 3, 4.1 and 4.2. -/

/-- Modelled from the spec: BookRecord (spec section 3) — one entry per
catalog title, with identifier, display text, category and tone labels,
per-tone scores, and optional display metadata.  The missing source is
backend_api.py. -/
structure BookRecord where
  id : String
  title : String
  authors : List String
  description : String
  category : String
  dominant_tone : String
  tone_scores : List (String × ℚ)
  cover_url : Option String
  published_date : Option String
  publisher : Option String
  page_count : Option Nat
deriving DecidableEq, Repr

/-- Modelled from the spec: QueryRequest (spec section 3) — one per
recommendation call.  The missing source is backend_api.py. -/
structure QueryRequest where
  text : String
  category_filter : String
  tone_filter : String
  result_limit : Nat
deriving DecidableEq, Repr

/-- Modelled from the spec: the category constraint of the Filter Policy
(spec section 4.2) — "If category_filter is All, no category constraint;
otherwise retain only records whose category exactly equals
category_filter."  The missing source is backend_api.py. -/
def applyCategoryFilter (cf : String) (cands : List BookRecord) :
    List BookRecord :=
  if cf = "All" then cands else cands.filter (fun b => b.category == cf)

/-- Modelled from the spec: the tone constraint of the Filter Policy (spec
section 4.2) — "If tone_filter is All, no tone constraint; otherwise retain
only records whose dominant_tone exactly equals tone_filter."  The missing
source is backend_api.py. -/
def applyToneFilter (tf : String) (cands : List BookRecord) :
    List BookRecord :=
  if tf = "All" then cands else cands.filter (fun b => b.dominant_tone == tf)

/-- Modelled from the spec: Filter Policy `apply` (spec section 4.2) — both
constraints compose by conjunction on the similarity-ordered candidate list.
The missing source is backend_api.py. -/
def filterPolicy (cands : List BookRecord) (cf tf : String) :
    List BookRecord :=
  applyToneFilter tf (applyCategoryFilter cf cands)

/-- Modelled from the spec: Catalog Store `get(id)` (spec section 4.3) —
O(1) lookup by id in the catalog, here the first catalog record carrying
the id.  The missing source is backend_api.py. -/
def storeGet (catalog : List BookRecord) (id : String) : Option BookRecord :=
  catalog.find? (fun b => b.id == id)

/-- Modelled from the spec: catalog insertion order (spec section 4.1,
ranking tie-break) — the position of an id in the catalog.  The missing
source is backend_api.py. -/
def catalogPos (catalog : List BookRecord) (id : String) : Nat :=
  catalog.findIdx (fun b => b.id == id)

/-- Worker of `dedupById`: `seen` collects the ids already emitted. -/
def dedupGo (seen : List String) : List BookRecord → List BookRecord
  | [] => []
  | b :: rest =>
    if b.id ∈ seen then dedupGo seen rest
    else b :: dedupGo (b.id :: seen) rest

/-- Modelled from the spec: deduplication step (spec section 4.1, step 6) —
"Deduplicate by id, keeping the first (highest-similarity) occurrence."
The missing source is backend_api.py. -/
def dedupById (l : List BookRecord) : List BookRecord :=
  dedupGo [] l

/-- Modelled from the spec: post-search pipeline of `recommend` (spec
section 4.1, steps 4-7) — map candidates returned by the Vector Index back
to full records through the Catalog Store, silently dropping stale ids,
apply the Filter Policy, deduplicate by id, truncate to the result limit.
Candidates are (id, similarity) pairs as delivered by the index, similarity
descending.  The missing source is backend_api.py. -/
def recommendFrom (catalog : List BookRecord)
    (cands : List (String × ℚ)) (req : QueryRequest) : List BookRecord :=
  let mapped := cands.filterMap (fun c => storeGet catalog c.1)
  let filtered := filterPolicy mapped req.category_filter req.tone_filter
  let deduped := dedupById filtered
  deduped.take req.result_limit

/-- Rank order used by the engine: higher similarity first, ties by catalog
insertion order (spec section 4.1, ranking tie-break).  `rankLE score pos i j`
says the record with id `i` may appear no later than the one with id `j`. -/
def rankLE (score : String → ℚ) (pos : String → Nat) (i j : String) : Prop :=
  score j < score i ∨ (score i = score j ∧ pos i ≤ pos j)

instance (score : String → ℚ) (pos : String → Nat) (i j : String) :
    Decidable (rankLE score pos i j) := by
  unfold rankLE; infer_instance

/-! ## Helper lemmas about the engine model -/

theorem dedupGo_sublist (l : List BookRecord) :
    ∀ seen, (dedupGo seen l).Sublist l := by
  induction l with
  | nil => intro seen; simp [dedupGo]
  | cons x rest ih =>
    intro seen
    by_cases h : x.id ∈ seen
    · simp only [dedupGo, if_pos h]
      exact List.Sublist.cons x (ih seen)
    · simp only [dedupGo, if_neg h]
      exact List.Sublist.cons₂ x (ih (x.id :: seen))

theorem mem_dedupGo_not_seen (l : List BookRecord) :
    ∀ (seen : List String) (b : BookRecord), b ∈ dedupGo seen l → b.id ∉ seen := by
  induction l with
  | nil => intro seen b h; simp [dedupGo] at h
  | cons x rest ih =>
    intro seen b h
    by_cases hx : x.id ∈ seen
    · simp only [dedupGo, if_pos hx] at h
      exact ih seen b h
    · simp only [dedupGo, if_neg hx, List.mem_cons] at h
      rcases h with rfl | h
      · exact hx
      · have hni := ih (x.id :: seen) b h
        intro hb
        exact hni (List.mem_cons_of_mem _ hb)

theorem dedupGo_id_nodup (l : List BookRecord) :
    ∀ seen, ((dedupGo seen l).map (fun b => b.id)).Nodup := by
  induction l with
  | nil => intro seen; simp [dedupGo]
  | cons x rest ih =>
    intro seen
    by_cases h : x.id ∈ seen
    · simp only [dedupGo, if_pos h]
      exact ih seen
    · simp only [dedupGo, if_neg h, List.map_cons, List.nodup_cons]
      refine ⟨?_, ih (x.id :: seen)⟩
      intro hmem
      rcases List.mem_map.mp hmem with ⟨b, hb, hid⟩
      exact mem_dedupGo_not_seen rest (x.id :: seen) b hb (hid ▸ List.mem_cons_self _ _)

theorem dedupGo_eq_self (l : List BookRecord) :
    ∀ seen, (∀ b ∈ l, b.id ∉ seen) → ((l.map (fun b => b.id)).Nodup) →
      dedupGo seen l = l := by
  induction l with
  | nil => intro seen _ _; rfl
  | cons x rest ih =>
    intro seen hseen hnd
    have hx : x.id ∉ seen := hseen x (List.mem_cons_self _ _)
    simp only [List.map_cons, List.nodup_cons] at hnd
    simp only [dedupGo, if_neg hx]
    refine congrArg (x :: ·) (ih (x.id :: seen) ?_ hnd.2)
    intro b hb
    simp only [List.mem_cons]
    rintro (hbx | hbs)
    · exact hnd.1 (hbx ▸ List.mem_map_of_mem (fun b => b.id) hb)
    · exact hseen b (List.mem_cons_of_mem _ hb) hbs

theorem find?_of_mem_dedupGo (l : List BookRecord) :
    ∀ (seen : List String) (b : BookRecord), b ∈ dedupGo seen l →
      l.find? (fun x => x.id == b.id) = some b := by
  induction l with
  | nil => intro seen b h; simp [dedupGo] at h
  | cons x rest ih =>
    intro seen b h
    by_cases hx : x.id ∈ seen
    · simp only [dedupGo, if_pos hx] at h
      have hb := mem_dedupGo_not_seen rest seen b h
      have hne : x.id ≠ b.id := fun e => hb (e ▸ hx)
      rw [List.find?_cons_of_neg _ (by simpa using hne)]
      exact ih seen b h
    · simp only [dedupGo, if_neg hx, List.mem_cons] at h
      rcases h with rfl | h
      · exact List.find?_cons_of_pos _ (by simp)
      · have hb := mem_dedupGo_not_seen rest (x.id :: seen) b h
        have hne : x.id ≠ b.id := fun e => hb (e ▸ List.mem_cons_self _ _)
        rw [List.find?_cons_of_neg _ (by simpa using hne)]
        exact ih (x.id :: seen) b h

theorem filterPolicy_eq_filter (cands : List BookRecord) (cf tf : String) :
    filterPolicy cands cf tf =
      cands.filter (fun b =>
        (cf == "All" || b.category == cf) &&
        (tf == "All" || b.dominant_tone == tf)) := by
  unfold filterPolicy applyCategoryFilter applyToneFilter
  by_cases hc : cf = "All" <;> by_cases ht : tf = "All"
  · simp [hc, ht]
  · have htb : (tf == "All") = false := beq_eq_false_iff_ne.mpr ht
    simp [hc, ht, htb]
  · have hcb : (cf == "All") = false := beq_eq_false_iff_ne.mpr hc
    simp [hc, ht, hcb]
  · have hcb : (cf == "All") = false := beq_eq_false_iff_ne.mpr hc
    have htb : (tf == "All") = false := beq_eq_false_iff_ne.mpr ht
    simp [hc, ht, hcb, htb, List.filter_filter, Bool.and_comm]

theorem filterPolicy_sublist (cands : List BookRecord) (cf tf : String) :
    (filterPolicy cands cf tf).Sublist cands := by
  rw [filterPolicy_eq_filter]
  exact List.filter_sublist cands

/-! ## Sample data for witnesses -/

/-- A sample catalog record used by witnesses. -/
def bookW : BookRecord where
  id := "b1"
  title := "Sample"
  authors := ["A"]
  description := "d"
  category := "Fiction"
  dominant_tone := "Happy"
  tone_scores := [("Happy", 1)]
  cover_url := none
  published_date := none
  publisher := none
  page_count := none

/-- A one-record sample catalog used by witnesses. -/
def catalogW : List BookRecord := [bookW]

/-- A sample query request used by witnesses. -/
def reqW : QueryRequest where
  text := "q"
  category_filter := "All"
  tone_filter := "All"
  result_limit := 5

/-- A constant similarity assignment used by witnesses. -/
def scoreW : String → ℚ := fun _ => 1

/-! ## Claim theorems -/

/-- C1: for every candidate list and filter pair, the Filter Policy retains
exactly the records whose category equals category_filter (when it is not
"All") and whose dominant_tone equals tone_filter (when it is not "All"),
composing both constraints by conjunction with "All" imposing no constraint,
and the surviving records keep their relative input order (the result is a
sublist of the input, never re-sorted). -/
theorem filter_policy_conjunction_and_order (cands : List BookRecord)
    (cf tf : String) :
    filterPolicy cands cf tf =
      cands.filter (fun b =>
        (cf == "All" || b.category == cf) &&
        (tf == "All" || b.dominant_tone == tf))
    ∧ (filterPolicy cands cf tf).Sublist cands
    ∧ ∀ b, b ∈ filterPolicy cands cf tf ↔
        b ∈ cands ∧ (cf = "All" ∨ b.category = cf) ∧
          (tf = "All" ∨ b.dominant_tone = tf) := by
  refine ⟨filterPolicy_eq_filter cands cf tf, filterPolicy_sublist cands cf tf, ?_⟩
  intro b
  rw [filterPolicy_eq_filter]
  simp [List.mem_filter, and_assoc]

/-- C2: the recommendation result never contains two records with the same
id, its length is at most the result limit, deduplicating the result a
second time leaves it unchanged, and the deduplication step keeps, for each
id, the first occurrence of the input list. -/
theorem recommend_result_dedup_and_limit (catalog : List BookRecord)
    (cands : List (String × ℚ)) (req : QueryRequest) :
    ((recommendFrom catalog cands req).map (fun b => b.id)).Nodup
    ∧ (recommendFrom catalog cands req).length ≤ req.result_limit
    ∧ dedupById (recommendFrom catalog cands req) = recommendFrom catalog cands req
    ∧ ∀ (l : List BookRecord) (b : BookRecord), b ∈ dedupById l →
        l.find? (fun x => x.id == b.id) = some b := by
  have hrec : recommendFrom catalog cands req =
      (dedupById (filterPolicy
        (cands.filterMap (fun c => storeGet catalog c.1))
        req.category_filter req.tone_filter)).take req.result_limit := rfl
  have hnodup : ((recommendFrom catalog cands req).map (fun b => b.id)).Nodup := by
    rw [hrec, List.map_take]
    exact List.Nodup.sublist (List.take_sublist _ _) (dedupGo_id_nodup _ [])
  refine ⟨hnodup, ?_, ?_, ?_⟩
  · rw [hrec]
    exact List.length_take_le _ _
  · exact dedupGo_eq_self _ [] (fun b _ => List.not_mem_nil _) hnodup
  · intro l b hb
    exact find?_of_mem_dedupGo l [] b hb

/-- C3: when the candidate list delivered by the vector index is ordered by
non-increasing similarity with ties in catalog insertion order, the
recommendation result is ordered the same way; the engine only ever takes
order-preserving sublists, so identical inputs yield identical output
sequences. -/
theorem recommend_result_order (catalog : List BookRecord)
    (cands : List (String × ℚ)) (req : QueryRequest) (score : String → ℚ)
    (hsorted : cands.Pairwise
      (fun c d => rankLE score (catalogPos catalog) c.1 d.1)) :
    (recommendFrom catalog cands req).Pairwise
      (fun a b => rankLE score (catalogPos catalog) a.id b.id) := by
  have hmapped : (cands.filterMap (fun c => storeGet catalog c.1)).Pairwise
      (fun a b => rankLE score (catalogPos catalog) a.id b.id) := by
    refine List.pairwise_filterMap.2 (hsorted.imp ?_)
    intro c d hcd a ha b hb
    have ha' : List.find? (fun x => x.id == c.1) catalog = some a :=
      Option.mem_def.mp ha
    have hb' : List.find? (fun x => x.id == d.1) catalog = some b :=
      Option.mem_def.mp hb
    have hca : a.id = c.1 := by simpa using List.find?_some ha'
    have hdb : b.id = d.1 := by simpa using List.find?_some hb'
    rw [hca, hdb]
    exact hcd
  have hfil := List.Pairwise.sublist
    (filterPolicy_sublist _ req.category_filter req.tone_filter) hmapped
  have hded := List.Pairwise.sublist (dedupGo_sublist _ []) hfil
  exact List.Pairwise.sublist (List.take_sublist _ _) hded

/-- Witness for C1: on the sample catalog, the matching record passes the
conjunction of both non-"All" filters. -/
theorem filter_policy_conjunction_and_order_witness :
    bookW ∈ filterPolicy catalogW "Fiction" "Happy" :=
  ((filter_policy_conjunction_and_order catalogW "Fiction" "Happy").2.2 bookW).mpr
    ⟨by decide, Or.inr rfl, Or.inr rfl⟩

/-- Witness for C2: the deduplication step keeps the first occurrence, shown
on a concrete one-record list. -/
theorem recommend_result_dedup_and_limit_witness :
    [bookW].find? (fun x => x.id == bookW.id) = some bookW :=
  (recommend_result_dedup_and_limit catalogW [] reqW).2.2.2 [bookW] bookW (by decide)

/-- Witness for C3: the order theorem applied to the sample catalog with a
concrete sorted candidate list. -/
theorem recommend_result_order_witness :
    (recommendFrom catalogW [("b1", (1 : ℚ))] reqW).Pairwise
      (fun a b => rankLE scoreW (catalogPos catalogW) a.id b.id) :=
  recommend_result_order catalogW [("b1", (1 : ℚ))] reqW scoreW (by simp)

/-- Trimming yields the empty string exactly when every character of the
query is whitespace. -/
theorem jsTrim_eq_nil_iff (q : List Char) : jsTrim q = [] ↔ ∀ c ∈ q, wsChar c := by
  unfold jsTrim
  rw [List.reverse_eq_nil_iff, List.dropWhile_eq_nil_iff]
  constructor
  · intro h c hc
    have hsplit : c ∈ q.takeWhile wsChar ++ q.dropWhile wsChar := by
      rw [List.takeWhile_append_dropWhile]
      exact hc
    rcases List.mem_append.mp hsplit with h1 | h2
    · exact List.mem_takeWhile_imp h1
    · exact h c (List.mem_reverse.mpr h2)
  · intro h c hc
    exact h c ((List.dropWhile_sublist wsChar).mem (List.mem_reverse.mp hc))

/-- C5: submitting the search form with a query whose trimmed form is empty
never invokes onSearch (no request is made), while a query containing at
least one non-whitespace character invokes onSearch with the query itself. -/
theorem blank_query_never_searched (q : List Char) :
    (jsTrim q = [] ↔ ∀ c ∈ q, wsChar c)
    ∧ (jsTrim q = [] → handleSubmit q = none)
    ∧ ((∃ c ∈ q, ¬ wsChar c) → handleSubmit q = some q) := by
  refine ⟨jsTrim_eq_nil_iff q, ?_, ?_⟩
  · intro h
    simp [handleSubmit, h]
  · intro h
    have hne : jsTrim q ≠ [] := by
      rw [Ne, jsTrim_eq_nil_iff]
      rcases h with ⟨c, hc, hw⟩
      intro hall
      exact hw (hall c hc)
    simp [handleSubmit, hne]

/-- Witness for C5: a whitespace-only query is rejected, a query containing
a letter is passed through unchanged. -/
theorem blank_query_never_searched_witness :
    handleSubmit "   ".data = none ∧ handleSubmit " a ".data = some " a ".data :=
  ⟨(blank_query_never_searched "   ".data).2.1 (by decide),
   (blank_query_never_searched " a ".data).2.2 ⟨'a', by decide, by decide⟩⟩

/-- C4: a successful request leaves the error state null in both App
versions, and when the returned recommendation list is empty the info state
is set to the informational no-results message; a failed request sets the
error state instead. -/
theorem empty_result_is_info_not_error {Book : Type} (s : AppState Book)
    (recs : Option (List Book)) (d : Option String) :
    (handleSearchV1 s (.success recs)).error = none
    ∧ (handleSearchV2 s (.success recs)).error = none
    ∧ (recs.getD [] = [] → (handleSearchV1 s (.success recs)).info = some infoMsgV1)
    ∧ (recs.getD [] = [] → (handleSearchV2 s (.success recs)).info = some infoMsgV2)
    ∧ (handleSearchV1 s (.failure d)).error ≠ none
    ∧ (handleSearchV2 s (.failure d)).error ≠ none := by
  cases recs with
  | none => simp [handleSearchV1, handleSearchV2, searchPrologue]
  | some l =>
    cases l with
    | nil => simp [handleSearchV1, handleSearchV2, searchPrologue]
    | cons x xs => simp [handleSearchV1, handleSearchV2, searchPrologue]

/-- Witness for C4: on the initial state, an empty successful response sets
the info message and keeps the error state null in both App versions. -/
theorem empty_result_is_info_not_error_witness :
    (handleSearchV2 (initialAppState Nat) (.success (some []))).info = some infoMsgV2
    ∧ (handleSearchV2 (initialAppState Nat) (.success (some []))).error = none
    ∧ (handleSearchV1 (initialAppState Nat) (.success (some []))).info = some infoMsgV1 :=
  ⟨(empty_result_is_info_not_error (initialAppState Nat) (some []) none).2.2.2.1 rfl,
   (empty_result_is_info_not_error (initialAppState Nat) (some []) none).2.1,
   (empty_result_is_info_not_error (initialAppState Nat) (some []) none).2.2.1 rfl⟩

/-- C6: in both App versions, a failed request sets the recommendations
list to the empty list and the error state to a message (the response
detail when present, a fixed fallback otherwise), so a failure never leaves
a partial result presented as success. -/
theorem failure_yields_error_and_no_partial_result {Book : Type}
    (s : AppState Book) (d : Option String) :
    (handleSearchV1 s (.failure d)).recommendations = []
    ∧ (handleSearchV1 s (.failure d)).error = some (errorMessageOf d)
    ∧ (handleSearchV2 s (.failure d)).recommendations = []
    ∧ (handleSearchV2 s (.failure d)).error = some (errorMessageOf d) := by
  simp [handleSearchV1, handleSearchV2, searchPrologue]

/-- Witness for C6: a concrete failure with a detail message clears the
recommendations and sets the error state. -/
theorem failure_yields_error_witness :
    (handleSearchV2 (initialAppState Nat) (.failure (some "boom"))).recommendations = ([] : List Nat)
    ∧ (handleSearchV2 (initialAppState Nat) (.failure (some "boom"))).error =
        some (errorMessageOf (some "boom")) :=
  ⟨(failure_yields_error_and_no_partial_result (initialAppState Nat) (some "boom")).2.2.1,
   (failure_yields_error_and_no_partial_result (initialAppState Nat) (some "boom")).2.2.2⟩

/-- C7: the App initializes the selected category and tone to "All" and the
filter option lists to the singleton ["All"], and every recommendations
request carries the query together with the currently selected category and
tone (hence "All"/"All" when the caller has not chosen otherwise). -/
theorem default_filters_are_all {Book : Type} (q : String) :
    (initialAppState Book).selectedCategory = "All"
    ∧ (initialAppState Book).selectedTone = "All"
    ∧ (initialAppState Book).filterOptions = { categories := ["All"], tones := ["All"] }
    ∧ (∀ s : AppState Book, searchRequest s q =
        { query := q, category := s.selectedCategory, tone := s.selectedTone })
    ∧ searchRequest (initialAppState Book) q =
        { query := q, category := "All", tone := "All" } :=
  ⟨rfl, rfl, rfl, fun _ => rfl, rfl⟩

/-- Counterexample to C8: for the authors field arriving as the list
["Alice", "Bob"], the display layer does not normalize to the given
sequence — BookCard reduces it to its first element "Alice" while
BookDetail joins it into the single string "Alice, Bob", so no single
canonical ordered sequence is used as given. -/
theorem authors_not_single_canonical_sequence :
    bookCardAuthor (JsStrField.list ["Alice", "Bob"]) = "Alice"
    ∧ bookDetailAuthors (JsStrField.list ["Alice", "Bob"]) = "Alice, Bob"
    ∧ bookCardAuthor (JsStrField.list ["Alice", "Bob"]) ≠
        bookDetailAuthors (JsStrField.list ["Alice", "Bob"]) := by
  refine ⟨by decide, by decide, by decide⟩

/-- C8 (amended): the categories field is normalized identically by
BookCard and BookDetail into one canonical ordered sequence of strings — a
list as given, a non-empty string split on commas with segments trimmed and
empty segments dropped, an absent value giving the empty sequence; the
authors field, in contrast, is reduced to a single display string — the
comma-join of a non-empty list in BookDetail, the first element in
BookCard, the string itself when it arrives as a non-empty string — with
the fixed "Unknown Author" fallback for absent or empty values. -/
theorem field_normalization_amended :
    (∀ f, normalizeCategoriesDetail f = normalizeCategoriesCard f)
    ∧ (∀ l, normalizeCategoriesDetail (JsStrField.list l) = l)
    ∧ (∀ s, normalizeCategoriesDetail (JsStrField.str s) =
        if s = "" then []
        else ((s.splitOn ",").map String.trim).filter (· ≠ ""))
    ∧ normalizeCategoriesDetail JsStrField.absent = []
    ∧ bookDetailAuthors JsStrField.absent = "Unknown Author"
    ∧ bookCardAuthor JsStrField.absent = "Unknown Author"
    ∧ (∀ s, bookDetailAuthors (JsStrField.str s) =
        if s = "" then "Unknown Author" else s)
    ∧ (∀ s, bookCardAuthor (JsStrField.str s) =
        if s = "" then "Unknown Author" else s)
    ∧ (∀ l, bookDetailAuthors (JsStrField.list l) =
        if 0 < l.length ∧ String.intercalate ", " l ≠ ""
        then String.intercalate ", " l else "Unknown Author")
    ∧ (∀ a rest, bookCardAuthor (JsStrField.list (a :: rest)) =
        if a = "" then "Unknown Author" else a) := by
  refine ⟨fun f => by cases f <;> rfl, fun l => rfl, ?_, rfl, rfl, rfl, ?_, ?_, ?_, ?_⟩
  · intro s
    by_cases hs : s = "" <;> simp [normalizeCategoriesDetail, hs]
  · intro s
    by_cases hs : s = "" <;> simp [bookDetailAuthors, jsOrS, hs]
  · intro s
    by_cases hs : s = "" <;> simp [bookCardAuthor, jsOrS, hs]
  · intro l
    by_cases hl : 0 < l.length
    · by_cases hj : String.intercalate ", " l = ""
      · simp [bookDetailAuthors, jsOrS, hl, hj]
      · simp [bookDetailAuthors, jsOrS, hl, hj]
    · have : l.length = 0 := Nat.eq_zero_of_not_pos hl
      simp [bookDetailAuthors, jsOrS, hl, this]
  · intro a rest
    by_cases ha : a = "" <;> simp [bookCardAuthor, jsOrS, ha]

/-- C9: the displayed cover image URL is never the missing-cover sentinel
taken from the large_thumbnail field: in both imageUrl variants, when
large_thumbnail is absent, empty, or equal to the sentinel (and, in the
variant with a thumbnail fallback, no thumbnail is available), the fixed
placeholder URL is displayed instead. -/
theorem cover_sentinel_never_displayed (d : String) (hd : d ≠ coverNotFound) :
    (∀ large, imageUrlA d large ≠ coverNotFound)
    ∧ (∀ large, truthyS large = false ∨ large = some coverNotFound →
        imageUrlA d large = d)
    ∧ (∀ large thumb, large = some coverNotFound → imageUrlB d large thumb = d)
    ∧ (∀ large thumb, truthyS large = false ∨ large = some coverNotFound →
        truthyS thumb = false → imageUrlB d large thumb = d) := by
  refine ⟨?_, ?_, ?_, ?_⟩
  · intro large
    cases large with
    | none => simpa [imageUrlA, truthyS] using hd
    | some s =>
      by_cases hs : s = ""
      · simpa [imageUrlA, truthyS, hs] using hd
      · by_cases hsc : s = coverNotFound
        · simpa [imageUrlA, truthyS, hsc] using hd
        · simp [imageUrlA, truthyS, jsOrOpt, hs, hsc]
  · intro large h
    rcases h with h | rfl
    · simp [imageUrlA, h]
    · simp [imageUrlA, truthyS, coverNotFound]
  · intro large thumb h
    subst h
    simp [imageUrlB, jsOrOpt, truthyS, coverNotFound]
  · intro large thumb h ht
    rcases h with h | rfl
    · simp [imageUrlB, jsOrOpt, h, ht]
    · simp [imageUrlB, jsOrOpt, truthyS, coverNotFound, ht]

/-- Witness for C9: the placeholder constants of the components are not the
sentinel, a sentinel large_thumbnail yields the placeholder in variant A,
and a fully absent pair yields the placeholder in variant B. -/
theorem cover_sentinel_never_displayed_witness :
    imageUrlA defaultCover150 (some coverNotFound) = defaultCover150
    ∧ imageUrlB defaultCover200 none none = defaultCover200 :=
  ⟨(cover_sentinel_never_displayed defaultCover150 (by decide)).2.1
      (some coverNotFound) (Or.inr rfl),
   (cover_sentinel_never_displayed defaultCover200 (by decide)).2.2.2
      none none (Or.inl rfl) rfl⟩

/-- Counterexample to C10: the empty string is a title of at most 40
characters, yet the reverted BookCard does not display it unchanged — it
displays the "Unknown Title" fallback. -/
theorem short_title_changed_counterexample :
    ([] : List Char).length ≤ 40
    ∧ displayTitle (some []) = unknownTitle
    ∧ displayTitle (some []) ≠ [] := by
  refine ⟨by decide, by decide, by decide⟩

/-- C10 (amended): the reverted BookCard always displays a title of at most
40 characters; a title longer than 40 characters is replaced by its first
37 characters followed by "...", a non-empty title of at most 40 characters
is displayed unchanged, and an empty or absent title displays the fixed
"Unknown Title" fallback. -/
theorem display_title_truncation_amended (s : List Char) :
    (displayTitle (some s)).length ≤ 40
    ∧ (s.length > 40 → displayTitle (some s) = s.take 37 ++ "...".data)
    ∧ (s ≠ [] → s.length ≤ 40 → displayTitle (some s) = s)
    ∧ displayTitle (some []) = unknownTitle
    ∧ displayTitle none = unknownTitle := by
  have hdot : ("...".data).length = 3 := rfl
  refine ⟨?_, ?_, ?_, by decide, by decide⟩
  · by_cases hs : s = []
    · subst hs; decide
    · by_cases hlen : s.length > 40
      · have h37 : (37 : Nat) ≤ s.length := by omega
        simp [displayTitle, hs, hlen, List.length_append, List.length_take,
          Nat.min_eq_left h37, hdot]
      · simp [displayTitle, hs, hlen]
        omega
  · intro hlen
    have hs : s ≠ [] := by
      intro h
      subst h
      simp at hlen
    simp [displayTitle, hs, hlen]
  · intro hs hlen
    have hgt : ¬ s.length > 40 := by omega
    simp [displayTitle, hs, hgt]

/-- Witness for C10: a short non-empty title is displayed unchanged, a
45-character title is truncated to its first 37 characters plus the
ellipsis. -/
theorem display_title_truncation_amended_witness :
    displayTitle (some "Dune".data) = "Dune".data
    ∧ displayTitle (some (List.replicate 45 'a')) =
        (List.replicate 45 'a').take 37 ++ "...".data :=
  ⟨(display_title_truncation_amended "Dune".data).2.2.1 (by decide) (by decide),
   (display_title_truncation_amended (List.replicate 45 'a')).2.1 (by decide)⟩

end Semantica
